import Mathlib

/-!
Shallow embedding of the AI-grading browser extension
(source files: src/components/GradingView.tsx, src/services/geminiService.ts,
src/content.js, and the AnalysisView / types module in src/unnamed/part_000).

Numbers that are JavaScript floating-point numbers in the source are modelled
as rationals (ℚ); all values appearing in the claims are exactly representable,
and the one place where IEEE semantics could diverge (division by a zero
maxScore inside the bucket fold) is fenced off by an explicit hypothesis.
Strings are modelled as Lean strings; `null`/`undefined` as `Option`.
-/

namespace AIGrader

/-! ## Data model (src/unnamed/part_000, types section) -/

/-- One breakdown item of a grading result (interface StudentResult.breakdown). -/
structure BreakdownItem where
  label : String
  score : ℚ
  max : ℚ
  comment : Option String
  isNegative : Option Bool
  relevantArea : Option (List ℚ)
deriving DecidableEq

/-- interface StudentResult. -/
structure StudentResult where
  id : String
  name : String
  className : Option String
  studentNo : Option String
  score : ℚ
  maxScore : ℚ
  comment : String
  breakdown : List BreakdownItem
deriving DecidableEq

/-- interface PageContext: data scraped from the grading page. -/
structure PageContext where
  platform : String
  studentName : String
  answerImageBase64 : String
  timestamp : Option ℚ
deriving DecidableEq

/-- enum GradingMode. -/
inductive GradingMode
  | trial
  | batch
deriving DecidableEq

/-! ## GradingView state machine (src/components/GradingView.tsx)

The component's React state plus the loop-control refs, as far as the batch
loop reads or writes them.  `isBatchRunning` stands for both the
`isBatchRunning` state and the `isBatchRunningRef` ref: the source always
assigns them together (startBatch / stopBatch).  The purely visual pieces of
state (showEvidence, activeBreakdownIndex, health) do not feed back into the
loop and are omitted.  `history` is the localStorage key grading_history. -/

/-- The `status` state of GradingView. -/
inductive Status
  | scanning
  | grading
  | review
  | error
  | sleeping
deriving DecidableEq

/-- The GradingView state relevant to the batch-scan loop. -/
structure GVState where
  mode : GradingMode
  status : Status
  errorMsg : Option String
  pageContext : Option PageContext
  result : Option StudentResult
  isBatchRunning : Bool
  batchCount : Nat
  scanWaitCount : Nat
  lastGradedName : Option String
  isRubricConfigured : Bool
  currentRubric : String
  history : List StudentResult
deriving DecidableEq

/-- Asynchronous actions requested by a step of the loop.  A `setTimeout`
becomes a schedule effect; a chrome message or network call becomes a
request effect whose response is delivered to a later callback. -/
inductive Effect
  | scheduleScan (delayMs : Nat)
  | scheduleSubmit (delayMs : Nat) (score : ℚ) (name : String)
  | sendScanRequest
  | issueGradeRequest (rubric : String)
  | sendFillScore (score : ℚ)
  | alertUser (msg : String)
deriving DecidableEq

/-- Response of the content script to REQUEST_PAGE_DATA: either
`response.success && response.data`, or a failure (with optional
`response.error`); a chrome.runtime.lastError connection failure is
also a failure for the loop's purposes (both land in the retry /
handleScanError branch). -/
inductive ScanResponse
  | ok (data : PageContext)
  | err (msg : Option String)
deriving DecidableEq

/-- Outcome of the awaited assessStudentAnswer call in startGrading. -/
inductive GradeResponse
  | ok (res : StudentResult)
  | err
deriving DecidableEq

/-- Constant DEFAULT_GENERIC_RUBRIC of GradingView.tsx. -/
def DEFAULT_GENERIC_RUBRIC : String :=
  "通用评分模式：重点检查答案正确性（权重60%）与过程完整性（权重40%）。若题目未标注满分，默认按10分制评判。请对解题思路进行简要点评。"

/-- stopBatch: clears both running flags and parks the UI. -/
def stopBatch (s : GVState) : GVState :=
  { s with isBatchRunning := false, status := Status.sleeping }

/-- The synchronous prefix of scanPage, up to sending REQUEST_PAGE_DATA:
when not batch-running it resets status and the wait counter; it always
clears errorMsg and pageContext. -/
def scanPageBegin (s : GVState) : GVState × List Effect :=
  let s1 := if s.isBatchRunning = false
    then { s with status := Status.scanning, scanWaitCount := 0 }
    else s
  ({ s1 with errorMsg := none, pageContext := none }, [Effect.sendScanRequest])

/-- handleScanError: in batch mode silently schedule a 2s retry; otherwise
surface the message and enter the error state. -/
def handleScanError (s : GVState) (msg : String) : GVState × List Effect :=
  if s.isBatchRunning = true then
    (s, [Effect.scheduleScan 2000])
  else
    ({ s with errorMsg := some msg, status := Status.error }, [])

/-- The synchronous prefix of startGrading: enter the grading status and
issue the AI call (its completion is a separate gradeCallback step). -/
def startGradingBegin (s : GVState) (rubric : String) : GVState × List Effect :=
  ({ s with status := Status.grading }, [Effect.issueGradeRequest rubric])

/-- handlePageData: store the page context, pick the rubric (batch requires a
configured one and pauses otherwise; trial falls back to the generic rubric),
then start grading. -/
def handlePageData (s : GVState) (data : PageContext) : GVState × List Effect :=
  let s1 := { s with pageContext := some data }
  if s1.isRubricConfigured = false ∨ s1.currentRubric = "" then
    if s1.mode = GradingMode.batch ∧ s1.isBatchRunning = true then
      (stopBatch { s1 with status := Status.review, result := none },
       [Effect.alertUser "批量阅卷已暂停：请先配置评分标准以确保准确性。"])
    else
      startGradingBegin s1 DEFAULT_GENERIC_RUBRIC
  else
    startGradingBegin s1 s1.currentRubric

/-- The sendMessage callback of scanPage for a REQUEST_PAGE_DATA response:
same-student data while batch-running bumps the wait counter and schedules a
1.5s retry; fresh data resets the counter and proceeds; a failure while
batch-running schedules a 2s retry, otherwise it goes to handleScanError. -/
def scanCallback (s : GVState) (r : ScanResponse) : GVState × List Effect :=
  match r with
  | ScanResponse.ok data =>
      if s.isBatchRunning = true ∧ some data.studentName = s.lastGradedName then
        ({ s with scanWaitCount := s.scanWaitCount + 1 }, [Effect.scheduleScan 1500])
      else
        handlePageData { s with scanWaitCount := 0 } data
  | ScanResponse.err msg =>
      if s.isBatchRunning = true then
        ({ s with scanWaitCount := s.scanWaitCount + 1 }, [Effect.scheduleScan 2000])
      else
        handleScanError s (msg.getD "未在页面上定位到答题卡图片")

/-- Resumption of startGrading after the awaited assessStudentAnswer call:
on success store the result (name overwritten by the scanned student name,
falling back to 未知学生) and, when batch-running, schedule the 800ms
auto-submit; on failure halt batch mode (stopBatch, then the error message
and status) or, outside batch mode, just surface the error. -/
def gradeCallback (s : GVState) (ctx : PageContext) (r : GradeResponse) :
    GVState × List Effect :=
  match r with
  | GradeResponse.ok res =>
      let res1 := { res with
        name := if ctx.studentName = "" then "未知学生" else ctx.studentName }
      let s1 := { s with result := some res1, status := Status.review }
      if s1.mode = GradingMode.batch ∧ s1.isBatchRunning = true then
        (s1, [Effect.scheduleSubmit 800 res1.score res1.name])
      else
        (s1, [])
  | GradeResponse.err =>
      if s.isBatchRunning = true then
        ({ stopBatch s with
            errorMsg := some "AI 服务响应异常，批量阅卷已安全暂停。",
            status := Status.error }, [])
      else
        ({ s with
            errorMsg := some "AI 服务响应异常，请检查网络或 API Key",
            status := Status.error }, [])

/-- The list transformation at the heart of recordHistory: unshift the new
item, then pop the tail when the length exceeds 500. -/
def recordHistoryList (item : StudentResult) (l : List StudentResult) :
    List StudentResult :=
  let l2 := item :: l
  if 500 < l2.length then l2.dropLast else l2

/-- recordHistory: no-op without a current result; otherwise build the
history item (score and name overwritten, fresh id from Date.now, passed in
as nowId) and store the capped list. -/
def recordHistory (s : GVState) (score : ℚ) (studentName : String)
    (nowId : String) : GVState :=
  match s.result with
  | none => s
  | some res =>
      let item := { res with score := score, name := studentName, id := nowId }
      { s with history := recordHistoryList item s.history }

/-- handleSubmitScore: FILL_SCORE is sent when a scanned platform is present;
the result is recorded; when batch-running the batch counter is bumped, the
student is remembered as last graded, and the next scan is scheduled. -/
def handleSubmitScore (s : GVState) (score : ℚ) (studentName : String)
    (nowId : String) : GVState × List Effect :=
  let fillEffects : List Effect :=
    match s.pageContext with
    | some ctx => if ctx.platform = "" then [] else [Effect.sendFillScore score]
    | none => []
  let s1 := recordHistory s score studentName nowId
  if s1.mode = GradingMode.batch ∧ s1.isBatchRunning = true then
    ({ s1 with
        batchCount := s1.batchCount + 1,
        lastGradedName := some studentName },
     fillEffects ++ [Effect.scheduleScan 2000])
  else
    (s1, fillEffects)

/-- Whether a step requested another scan via setTimeout (i.e. the batch
loop keeps polling). -/
def hasRetry (effects : List Effect) : Bool :=
  effects.any fun e =>
    match e with
    | Effect.scheduleScan _ => true
    | _ => false

/-- Drive the polling loop across a list of scan responses: every retry
re-enters scanPage (its synchronous prefix) and consumes the next response.
Returns the trace of scanWaitCount values observed after each retry, the
state after the first non-retry step, and that step's effects. -/
def runScanLoop (s : GVState) : List ScanResponse → List Nat × GVState × List Effect
  | [] => ([], s, [])
  | r :: rest =>
      let p := scanCallback s r
      if hasRetry p.2 = true then
        let s2 := (scanPageBegin p.1).1
        let q := runScanLoop s2 rest
        (p.1.scanWaitCount :: q.1, q.2)
      else
        ([], p.1, p.2)

/-! ## AnalysisView statistics (src/unnamed/part_000, calculateStats) -/

/-- Aggregated statistics produced by calculateStats; distribution pairs a
bucket label with its count (the chart colour is dropped). -/
structure Stats where
  avgScore : ℚ
  passRate : ℚ
  difficulty : ℚ
  count : Nat
  distribution : List (String × Nat)
deriving DecidableEq

/-- history[0].maxScore || 100: the denominator taken from the most recent
entry, defaulting to 100 when falsy (0 for a number). -/
def statsMaxScore (history : List StudentResult) : ℚ :=
  match history with
  | [] => 100
  | e :: _ => if e.maxScore = 0 then 100 else e.maxScore

/-- passThreshold = maxScore * 0.6. -/
def passThresholdOf (history : List StudentResult) : ℚ :=
  statsMaxScore history * (6 / 10)

/-- One step of the forEach that fills the four distribution buckets,
bucketed by the entry's own score/maxScore ratio. -/
def bucketStep (b : Nat × Nat × Nat × Nat) (s : StudentResult) :
    Nat × Nat × Nat × Nat :=
  let r := s.score / s.maxScore
  if r < 6 / 10 then (b.1 + 1, b.2.1, b.2.2.1, b.2.2.2)
  else if r < 3 / 4 then (b.1, b.2.1 + 1, b.2.2.1, b.2.2.2)
  else if r < 9 / 10 then (b.1, b.2.1, b.2.2.1 + 1, b.2.2.2)
  else (b.1, b.2.1, b.2.2.1, b.2.2.2 + 1)

/-- calculateStats: none on an empty history (the source early-returns),
otherwise average, pass rate against the single head-derived threshold,
difficulty, and the four ratio buckets. -/
def calculateStats (history : List StudentResult) : Option Stats :=
  if history.isEmpty = true then none
  else
    let count := history.length
    let totalScore := history.foldl (fun acc curr => acc + curr.score) 0
    let avgScore := totalScore / (count : ℚ)
    let maxScore := statsMaxScore history
    let passThreshold := maxScore * (6 / 10)
    let passCount := (history.filter fun s => decide (passThreshold ≤ s.score)).length
    let passRate := ((passCount : ℚ) / (count : ℚ)) * 100
    let difficulty := avgScore / maxScore
    let buckets := history.foldl bucketStep (0, 0, 0, 0)
    some {
      avgScore := avgScore
      passRate := passRate
      difficulty := difficulty
      count := count
      distribution :=
        [("待加油", buckets.1), ("及格", buckets.2.1),
         ("良好", buckets.2.2.1), ("优秀", buckets.2.2.2)] }

/-- An entry's own score/maxScore ratio. -/
def ratioOf (s : StudentResult) : ℚ := s.score / s.maxScore

/-- Bucket membership 待加油: ratio < 0.6. -/
def inBucket0 (s : StudentResult) : Bool := decide (ratioOf s < 6 / 10)

/-- Bucket membership 及格: 0.6 ≤ ratio < 0.75. -/
def inBucket1 (s : StudentResult) : Bool :=
  decide (¬ ratioOf s < 6 / 10 ∧ ratioOf s < 3 / 4)

/-- Bucket membership 良好: 0.75 ≤ ratio < 0.9. -/
def inBucket2 (s : StudentResult) : Bool :=
  decide (¬ ratioOf s < 3 / 4 ∧ ratioOf s < 9 / 10)

/-- Bucket membership 优秀: 0.9 ≤ ratio. -/
def inBucket3 (s : StudentResult) : Bool := decide (¬ ratioOf s < 9 / 10)

/-- The distribution restated entrywise: each entry is counted in the bucket
its own ratio selects. -/
def bucketCounts (history : List StudentResult) : List (String × Nat) :=
  [("待加油", history.countP inBucket0), ("及格", history.countP inBucket1),
   ("良好", history.countP inBucket2), ("优秀", history.countP inBucket3)]

/-! ## Configuration persistence (src/services/geminiService.ts)

localStorage plus JSON.stringify / JSON.parse are modelled as a string-keyed
store of JSON values: for the records this code stores, parse after stringify
is the identity on the JSON value, so the store holds the value itself.
AppConfig.provider is a string at runtime (the TS union is erased) and is
modelled as such. -/

/-- A JSON value, as far as the persisted records need. -/
inductive JsonVal
  | jstr (s : String)
  | jnum (q : ℚ)
  | jbool (b : Bool)
  | jobj (fields : List (String × JsonVal))

/-- The localStorage facade: a key/value store of JSON values. -/
def Store : Type := List (String × JsonVal)

/-- localStorage.setItem (new binding shadows any older one). -/
def setItem (st : Store) (k : String) (v : JsonVal) : Store := (k, v) :: st

/-- localStorage.getItem. -/
def getItem : Store → String → Option JsonVal
  | [], _ => none
  | (k1, v) :: rest, k => if k1 = k then some v else getItem rest k

/-- interface AppConfig. -/
structure AppConfig where
  provider : String
  endpoint : String
  modelName : String
  apiKey : String
deriving DecidableEq

/-- DEFAULT_CONFIG of geminiService.ts. -/
def DEFAULT_CONFIG : AppConfig :=
  { provider := "google", endpoint := "", modelName := "gemini-2.5-flash", apiKey := "" }

/-- JSON.stringify of an AppConfig (as a JSON value). -/
def configToJson (c : AppConfig) : JsonVal :=
  JsonVal.jobj
    [("provider", JsonVal.jstr c.provider), ("endpoint", JsonVal.jstr c.endpoint),
     ("modelName", JsonVal.jstr c.modelName), ("apiKey", JsonVal.jstr c.apiKey)]

/-- Field lookup on a parsed JSON object. -/
def jsonField : JsonVal → String → Option JsonVal
  | JsonVal.jobj fields, k =>
      match fields.find? (fun p => p.1 == k) with
      | some p => some p.2
      | none => none
  | _, _ => none

/-- Read a field the way the untyped TS code does: a present string comes
back as itself, anything else degrades (modelled as the empty string). -/
def jsonStrField (j : JsonVal) (k : String) : String :=
  match jsonField j k with
  | some (JsonVal.jstr s) => s
  | _ => ""

/-- The AppConfig the caller sees after JSON.parse of a stored record. -/
def jsonToConfig (j : JsonVal) : AppConfig :=
  { provider := jsonStrField j "provider", endpoint := jsonStrField j "endpoint",
    modelName := jsonStrField j "modelName", apiKey := jsonStrField j "apiKey" }

/-- saveAppConfig: stringify under the key app_model_config. -/
def saveAppConfig (st : Store) (c : AppConfig) : Store :=
  setItem st "app_model_config" (configToJson c)

/-- getAppConfig: parse the stored record if present, else the default with
the environment API key (process.env.API_KEY || two-quote empty). -/
def getAppConfig (st : Store) (envKey : String) : AppConfig :=
  match getItem st "app_model_config" with
  | some j => jsonToConfig j
  | none => { DEFAULT_CONFIG with apiKey := envKey }

/-! ## Model selection and reasoning budget (src/services/geminiService.ts) -/

/-- type GradingStrategy. -/
inductive GradingStrategy
  | flash
  | pro
  | reasoning
deriving DecidableEq

/-- getModelName: non-Google providers use the configured model name;
Google maps pro/reasoning to gemini-3-pro-preview and flash (the default)
to gemini-2.5-flash. -/
def getModelName (strategy : GradingStrategy) (config : AppConfig) : String :=
  if config.provider ≠ "google" then config.modelName
  else
    match strategy with
    | GradingStrategy.reasoning => "gemini-3-pro-preview"
    | GradingStrategy.pro => "gemini-3-pro-preview"
    | GradingStrategy.flash => "gemini-2.5-flash"

/-- The model identifier and optional thinkingBudget of the request built by
assessStudentAnswer: the Google branch uses getModelName and attaches a
budget of 16384 for reasoning and 2048 for pro (none for flash); the
OpenAI-compatible branch always uses config.modelName and never sets a
budget. -/
structure AssessRequest where
  model : String
  thinkingBudget : Option Nat
deriving DecidableEq

/-- Request shape produced by assessStudentAnswer for a config and strategy. -/
def assessRequest (config : AppConfig) (strategy : GradingStrategy) : AssessRequest :=
  if config.provider = "google" then
    { model := getModelName strategy config,
      thinkingBudget :=
        match strategy with
        | GradingStrategy.reasoning => some 16384
        | GradingStrategy.pro => some 2048
        | GradingStrategy.flash => none }
  else
    { model := config.modelName, thinkingBudget := none }

/-! ## Content-script score filling (src/content.js, tryFillScore) -/

/-- A DOM element, as far as tryFillScore inspects one: an identity, its tag,
and whether it is visible (offsetParent not null). -/
structure DomElem where
  elemId : Nat
  tagName : String
  visible : Bool
deriving DecidableEq

/-- The page as seen by tryFillScore: document.querySelector and
document.activeElement. -/
structure PageDom where
  query : String → Option DomElem
  activeElement : Option DomElem

/-- SCORE_INPUT_CONFIGS[platform] || two-bracket empty list. -/
def scoreInputConfigs (platform : String) : List String :=
  if platform = "ZHIXUE" then
    [".score-input", ".score-box input", ".postil-score input",
     "input[ng-model=\"score\"]", ".mark-input"]
  else if platform = "HAOFENSHU" then
    ["#scoreInput", ".js-score-input", ".input-score",
     "input[type=\"number\"].mark-input"]
  else if platform = "GENERIC" then
    ["input[type=\"number\"]", "input.score", "input.mark",
     "input[placeholder*=\"分\"]", "input[placeholder*=\"score\"]"]
  else []

/-- SCORE_INPUT_CONFIGS.GENERIC, always appended. -/
def genericScoreSelectors : List String :=
  ["input[type=\"number\"]", "input.score", "input.mark",
   "input[placeholder*=\"分\"]", "input[placeholder*=\"score\"]"]

/-- The selector loop of tryFillScore, with its exact JavaScript semantics:
the loop variable is overwritten by each querySelector result and the loop
breaks only on a visible hit, so after a full pass the variable holds the
LAST selector's result, visible or not. -/
def selectorLoop (dom : PageDom) : List String → Option DomElem → Option DomElem
  | [], input => input
  | sel :: rest, _ =>
      match dom.query sel with
      | some e => if e.visible = true then some e else selectorLoop dom rest (some e)
      | none => selectorLoop dom rest none

/-- Result of tryFillScore: success flag, error text, the element written to
(by identity) with the score written, and the synthetic events dispatched. -/
structure FillOutcome where
  success : Bool
  error : Option String
  filledElem : Option Nat
  writtenScore : Option ℚ
  eventsDispatched : List String
deriving DecidableEq

/-- tryFillScore (the platform argument is the resolved
platformHint || detectPlatform()): run the selector loop, fall back to the
focused element when the loop variable ended null and the focused element is
an INPUT, then either fail without dispatching events or write the score and
dispatch input/change/blur/keydown. -/
def tryFillScore (dom : PageDom) (score : ℚ) (platform : String) : FillOutcome :=
  let selectors := scoreInputConfigs platform ++ genericScoreSelectors
  let input := selectorLoop dom selectors none
  let input2 :=
    match input with
    | none =>
        match dom.activeElement with
        | some a => if a.tagName = "INPUT" then some a else none
        | none => none
    | some e => some e
  match input2 with
  | none =>
      { success := false, error := some "未找到可见的打分输入框",
        filledElem := none, writtenScore := none, eventsDispatched := [] }
  | some e =>
      { success := true, error := none,
        filledElem := some e.elemId, writtenScore := some score,
        eventsDispatched := ["input", "change", "blur", "keydown"] }

/-! ## Effect classification used by the stopped-loop theorems -/

/-- The batch-only actions the spec forbids once the running flag is down:
scheduling another batch scan, scheduling the auto-submit, or the score
submission itself. -/
def batchOnlyEffect : Effect → Bool
  | Effect.scheduleScan _ => true
  | Effect.scheduleSubmit _ _ _ => true
  | Effect.sendFillScore _ => true
  | _ => false

/-! ## Concrete instances the theorems below evaluate on -/

/-- A minimal StudentResult with the given score and maxScore. -/
def mkResult (score maxScore : ℚ) : StudentResult :=
  { id := "1", name := "学生", className := none, studentNo := none,
    score := score, maxScore := maxScore, comment := "", breakdown := [] }

/-- The example history of the spec scenario. -/
def historyC5 : List StudentResult :=
  [mkResult 8 10, mkResult 5 10, mkResult 9 10]

/-- A scanned page for the named student. -/
def sampleCtx (name : String) : PageContext :=
  { platform := "ZHIXUE", studentName := name,
    answerImageBase64 := "QUJD", timestamp := none }

/-- A batch-running state right after a student named 王五 was graded. -/
def batchState : GVState :=
  { mode := GradingMode.batch, status := Status.review, errorMsg := none,
    pageContext := none, result := none, isBatchRunning := true,
    batchCount := 3, scanWaitCount := 0, lastGradedName := some "王五",
    isRubricConfigured := true, currentRubric := "满分10分，答对得10分。",
    history := [] }

/-- The same state after stopBatch cleared the running flag. -/
def idleState : GVState :=
  { batchState with isBatchRunning := false, status := Status.sleeping }

/-- An OpenAI-compatible configuration. -/
def cfgOpenAI : AppConfig :=
  { provider := "openai", endpoint := "https://api.openai.com/v1/chat/completions",
    modelName := "gpt-4o", apiKey := "sk-1" }

/-- A Google-provider configuration. -/
def cfgGoogle : AppConfig :=
  { provider := "google", endpoint := "", modelName := "gemini-2.5-flash",
    apiKey := "k" }

/-- An invisible score input (offsetParent null), matched by the last
generic selector. -/
def hiddenScoreInput : DomElem :=
  { elemId := 1, tagName := "INPUT", visible := false }

/-- The visible input the teacher has focused. -/
def focusedScoreInput : DomElem :=
  { elemId := 2, tagName := "INPUT", visible := true }

/-- A page on which no selector matches a visible element: the last generic
selector matches only the hidden input, and a visible INPUT is focused. -/
def trapDom : PageDom :=
  { query := fun sel =>
      if sel = "input[placeholder*=\"score\"]" then some hiddenScoreInput else none,
    activeElement := some focusedScoreInput }

/-! # Theorems -/

/-- C7: for every AppConfig record, saving with saveAppConfig and reloading
with getAppConfig returns the same provider, endpoint, modelName and apiKey:
the save-then-load round trip is the identity on the configuration record. -/
theorem appConfig_roundtrip (st : Store) (c : AppConfig) (envKey : String) :
    getAppConfig (saveAppConfig st c) envKey = c := by
  cases c
  rfl

/-- C9: for a non-Google provider the model used by assessStudentAnswer is
config.modelName for every strategy and no reasoning budget is set; for the
Google provider flash selects gemini-2.5-flash with no budget, while pro and
reasoning both select gemini-3-pro-preview with different thinking budgets
(2048 and 16384). -/
theorem assessRequest_strategy_mapping (c : AppConfig) :
    (∀ s : GradingStrategy, c.provider ≠ "google" →
        (assessRequest c s).model = c.modelName
        ∧ (assessRequest c s).thinkingBudget = none)
    ∧ (c.provider = "google" →
        assessRequest c GradingStrategy.flash
          = { model := "gemini-2.5-flash", thinkingBudget := none }
        ∧ assessRequest c GradingStrategy.pro
          = { model := "gemini-3-pro-preview", thinkingBudget := some 2048 }
        ∧ assessRequest c GradingStrategy.reasoning
          = { model := "gemini-3-pro-preview", thinkingBudget := some 16384 }
        ∧ (assessRequest c GradingStrategy.pro).thinkingBudget
            ≠ (assessRequest c GradingStrategy.reasoning).thinkingBudget) := by
  constructor
  · intro s h
    cases s <;> simp [assessRequest, getModelName, h]
  · intro h
    refine ⟨?_, ?_, ?_, ?_⟩ <;> simp [assessRequest, getModelName, h]

/-- Witness for C9 at a concrete OpenAI-compatible and a concrete Google
configuration. -/
theorem assessRequest_strategy_mapping_inst :
    ((assessRequest cfgOpenAI GradingStrategy.pro).model = cfgOpenAI.modelName
      ∧ (assessRequest cfgOpenAI GradingStrategy.pro).thinkingBudget = none)
    ∧ (assessRequest cfgGoogle GradingStrategy.flash
          = { model := "gemini-2.5-flash", thinkingBudget := none }
        ∧ assessRequest cfgGoogle GradingStrategy.pro
          = { model := "gemini-3-pro-preview", thinkingBudget := some 2048 }
        ∧ assessRequest cfgGoogle GradingStrategy.reasoning
          = { model := "gemini-3-pro-preview", thinkingBudget := some 16384 }
        ∧ (assessRequest cfgGoogle GradingStrategy.pro).thinkingBudget
            ≠ (assessRequest cfgGoogle GradingStrategy.reasoning).thinkingBudget) :=
  ⟨(assessRequest_strategy_mapping cfgOpenAI).1 GradingStrategy.pro (by decide),
   (assessRequest_strategy_mapping cfgGoogle).2 (by decide)⟩

/-- C4: on a stored history of length at most 500, recordHistory's list
update puts the new result at the front, leaves the list untouched below the
cap, evicts exactly the oldest (tail) entry when insertion would exceed 500,
and never lets the stored list exceed 500 entries. -/
theorem recordHistory_cap (item : StudentResult) (l : List StudentResult)
    (h : l.length ≤ 500) :
    (recordHistoryList item l).length ≤ 500
    ∧ (recordHistoryList item l).head? = some item
    ∧ (l.length < 500 → recordHistoryList item l = item :: l)
    ∧ (l.length = 500 → recordHistoryList item l = item :: l.dropLast) := by
  by_cases h5 : 500 < (item :: l).length
  · have h500 : l.length = 500 := by
      simp only [List.length_cons] at h5
      omega
    have hne : l ≠ [] := by
      intro he
      rw [he] at h500
      simp at h500
    simp only [recordHistoryList, if_pos h5]
    have hdrop : (item :: l).dropLast = item :: l.dropLast := by
      cases l with
      | nil => exact absurd rfl hne
      | cons a as => rfl
    refine ⟨?_, ?_, ?_, ?_⟩
    · rw [List.length_dropLast, List.length_cons, h500]
    · rw [hdrop]; rfl
    · intro hlt; omega
    · intro _; exact hdrop
  · simp only [recordHistoryList, if_neg h5]
    simp only [List.length_cons] at h5
    refine ⟨?_, ?_, ?_, ?_⟩
    · simp only [List.length_cons]
      omega
    · trivial
    · intro _
      trivial
    · intro he
      omega

/-- Witness for C4 on a full 500-entry history: the insertion evicts the
tail and the result still has 500 entries. -/
theorem recordHistory_cap_inst :
    (recordHistoryList (mkResult 8 10) (List.replicate 500 (mkResult 5 10))).length ≤ 500
    ∧ (recordHistoryList (mkResult 8 10) (List.replicate 500 (mkResult 5 10))).head?
        = some (mkResult 8 10)
    ∧ ((List.replicate 500 (mkResult 5 10)).length < 500 →
        recordHistoryList (mkResult 8 10) (List.replicate 500 (mkResult 5 10))
          = mkResult 8 10 :: List.replicate 500 (mkResult 5 10))
    ∧ ((List.replicate 500 (mkResult 5 10)).length = 500 →
        recordHistoryList (mkResult 8 10) (List.replicate 500 (mkResult 5 10))
          = mkResult 8 10 :: (List.replicate 500 (mkResult 5 10)).dropLast) :=
  recordHistory_cap (mkResult 8 10) (List.replicate 500 (mkResult 5 10))
    (by simp only [List.length_replicate]; exact le_rfl)

/-- C1: while the batch loop is running with a configured rubric, driving
scanPage with N scan results reporting the already-graded student followed
by one reporting a different student yields exactly N retry attempts whose
wait-counter trace is w+1, w+2, ..., w+N, after which the loop proceeds to
grade the new student with the wait counter reset to 0.  (errorMsg and
pageContext are none at callback time: scanPage clears them before each
request.) -/
theorem batch_wait_retries
    (n : Nat) (s : GVState) (ctxS ctxN : PageContext)
    (hrun : s.isBatchRunning = true)
    (hlast : s.lastGradedName = some ctxS.studentName)
    (hnew : ctxN.studentName ≠ ctxS.studentName)
    (hrub : s.isRubricConfigured = true)
    (hrubs : s.currentRubric ≠ "")
    (hpre1 : s.errorMsg = none)
    (hpre2 : s.pageContext = none) :
    runScanLoop s (List.replicate n (ScanResponse.ok ctxS) ++ [ScanResponse.ok ctxN])
      = (List.range' (s.scanWaitCount + 1) n,
         { s with scanWaitCount := 0, pageContext := some ctxN,
                  status := Status.grading },
         [Effect.issueGradeRequest s.currentRubric]) := by
  obtain ⟨mo, st, em, pc, re, br, bc, wc, lg, rc, cr, hi⟩ := s
  dsimp only at hrun hlast hrub hrubs hpre1 hpre2 ⊢
  subst hrun hlast hrub hpre1 hpre2
  induction n generalizing wc with
  | zero =>
      simp [runScanLoop, scanCallback, handlePageData, startGradingBegin,
        hasRetry, hnew, hrubs]
  | succ n ih =>
      simp only [List.replicate_succ, List.cons_append, runScanLoop,
        scanCallback, hasRetry, scanPageBegin]
      simp [ih, List.range'_succ]

/-- Witness for C1: two same-student reports then a fresh student, from a
concrete running state with wait counter 0: trace [1, 2], then grading with
the counter reset. -/
theorem batch_wait_retries_inst :
    runScanLoop batchState
        (List.replicate 2 (ScanResponse.ok (sampleCtx "王五"))
          ++ [ScanResponse.ok (sampleCtx "李四")])
      = (List.range' (batchState.scanWaitCount + 1) 2,
         { batchState with scanWaitCount := 0,
                           pageContext := some (sampleCtx "李四"),
                           status := Status.grading },
         [Effect.issueGradeRequest batchState.currentRubric]) :=
  batch_wait_retries 2 batchState (sampleCtx "王五") (sampleCtx "李四")
    rfl rfl (by decide) rfl (by decide) rfl rfl

/-- C3: a page-adapter scan failure surfaces an operator-facing error iff
the batch loop is not running.  While running, the failure leaves the state
untouched except for the wait counter and schedules exactly one 2s retry;
while stopped, it sets the error message and the error status and schedules
nothing.  (errorMsg is none at callback time because scanPage clears it
before sending the request.) -/
theorem scanFailure_error_iff (s : GVState) (m : Option String)
    (hpre : s.errorMsg = none) :
    ((scanCallback s (ScanResponse.err m)).1.errorMsg ≠ none
        ↔ s.isBatchRunning = false)
    ∧ (s.isBatchRunning = true →
        scanCallback s (ScanResponse.err m)
          = ({ s with scanWaitCount := s.scanWaitCount + 1 },
             [Effect.scheduleScan 2000]))
    ∧ (s.isBatchRunning = false →
        (scanCallback s (ScanResponse.err m)).1.errorMsg
            = some (m.getD "未在页面上定位到答题卡图片")
        ∧ (scanCallback s (ScanResponse.err m)).1.status = Status.error
        ∧ (scanCallback s (ScanResponse.err m)).2 = []) := by
  cases hb : s.isBatchRunning
  · simp [scanCallback, handleScanError, hb, hpre]
  · simp [scanCallback, handleScanError, hb, hpre]

/-- Witness for C3: at a concrete running state the failure only bumps the
counter and retries; at the stopped variant it surfaces the error. -/
theorem scanFailure_error_iff_inst :
    (((scanCallback batchState (ScanResponse.err (some "CORS"))).1.errorMsg ≠ none
        ↔ batchState.isBatchRunning = false)
      ∧ (batchState.isBatchRunning = true →
          scanCallback batchState (ScanResponse.err (some "CORS"))
            = ({ batchState with scanWaitCount := batchState.scanWaitCount + 1 },
               [Effect.scheduleScan 2000]))
      ∧ (batchState.isBatchRunning = false →
          (scanCallback batchState (ScanResponse.err (some "CORS"))).1.errorMsg
              = some ((some "CORS").getD "未在页面上定位到答题卡图片")
          ∧ (scanCallback batchState (ScanResponse.err (some "CORS"))).1.status = Status.error
          ∧ (scanCallback batchState (ScanResponse.err (some "CORS"))).2 = []))
    ∧ (((scanCallback idleState (ScanResponse.err (some "CORS"))).1.errorMsg ≠ none
        ↔ idleState.isBatchRunning = false)
      ∧ (idleState.isBatchRunning = true →
          scanCallback idleState (ScanResponse.err (some "CORS"))
            = ({ idleState with scanWaitCount := idleState.scanWaitCount + 1 },
               [Effect.scheduleScan 2000]))
      ∧ (idleState.isBatchRunning = false →
          (scanCallback idleState (ScanResponse.err (some "CORS"))).1.errorMsg
              = some ((some "CORS").getD "未在页面上定位到答题卡图片")
          ∧ (scanCallback idleState (ScanResponse.err (some "CORS"))).1.status = Status.error
          ∧ (scanCallback idleState (ScanResponse.err (some "CORS"))).2 = [])) :=
  ⟨scanFailure_error_iff batchState (some "CORS") rfl,
   scanFailure_error_iff idleState (some "CORS") rfl⟩

/-- C6: once the running flag is false, a scan callback or a grade callback
that resumes can neither submit a score (directly or by scheduling the
auto-submit), nor increment the batch counter, nor schedule another batch
scan: every such resumption point re-checks the flag first. -/
theorem stopped_callbacks_inert (s : GVState) (h : s.isBatchRunning = false) :
    (∀ r : ScanResponse,
        (scanCallback s r).1.batchCount = s.batchCount
        ∧ ∀ e ∈ (scanCallback s r).2, batchOnlyEffect e = false)
    ∧ (∀ (ctx : PageContext) (g : GradeResponse),
        (gradeCallback s ctx g).1.batchCount = s.batchCount
        ∧ ∀ e ∈ (gradeCallback s ctx g).2, batchOnlyEffect e = false) := by
  constructor
  · intro r
    cases r with
    | ok data =>
        simp only [scanCallback, h, handlePageData, startGradingBegin]
        split
        · rename_i hcond
          simp at hcond
        · split <;> simp [batchOnlyEffect]
    | err m =>
        simp [scanCallback, handleScanError, h, batchOnlyEffect]
  · intro ctx g
    cases g with
    | ok res =>
        simp [gradeCallback, h, batchOnlyEffect]
    | err =>
        simp [gradeCallback, h, batchOnlyEffect]

/-- Witness for C6 at a concrete stopped state, for one scan response and
one grade response. -/
theorem stopped_callbacks_inert_inst :
    ((scanCallback idleState (ScanResponse.ok (sampleCtx "李四"))).1.batchCount
        = idleState.batchCount
      ∧ ∀ e ∈ (scanCallback idleState (ScanResponse.ok (sampleCtx "李四"))).2,
          batchOnlyEffect e = false)
    ∧ ((gradeCallback idleState (sampleCtx "李四") GradeResponse.err).1.batchCount
        = idleState.batchCount
      ∧ ∀ e ∈ (gradeCallback idleState (sampleCtx "李四") GradeResponse.err).2,
          batchOnlyEffect e = false) :=
  ⟨(stopped_callbacks_inert idleState rfl).1 (ScanResponse.ok (sampleCtx "李四")),
   (stopped_callbacks_inert idleState rfl).2 (sampleCtx "李四") GradeResponse.err⟩

/-- C2: a failure of the awaited AI grading call while the batch loop is
running leaves the running flag false, surfaces the halt message in the
error state, and requests no further action at all — in particular no scan
is scheduled and the grading call is not retried. -/
theorem gradeFailure_halts (s : GVState) (ctx : PageContext)
    (h : s.isBatchRunning = true) :
    (gradeCallback s ctx GradeResponse.err).1.isBatchRunning = false
    ∧ (gradeCallback s ctx GradeResponse.err).1.errorMsg
        = some "AI 服务响应异常，批量阅卷已安全暂停。"
    ∧ (gradeCallback s ctx GradeResponse.err).1.status = Status.error
    ∧ (gradeCallback s ctx GradeResponse.err).2 = [] := by
  simp [gradeCallback, stopBatch, h]

/-- Witness for C2 at a concrete batch-running state. -/
theorem gradeFailure_halts_inst :
    (gradeCallback batchState (sampleCtx "张三") GradeResponse.err).1.isBatchRunning = false
    ∧ (gradeCallback batchState (sampleCtx "张三") GradeResponse.err).1.errorMsg
        = some "AI 服务响应异常，批量阅卷已安全暂停。"
    ∧ (gradeCallback batchState (sampleCtx "张三") GradeResponse.err).1.status = Status.error
    ∧ (gradeCallback batchState (sampleCtx "张三") GradeResponse.err).2 = [] :=
  gradeFailure_halts batchState (sampleCtx "张三") rfl

/-- Helper: calculateStats evaluated on the spec's example history. -/
theorem calculateStats_historyC5_eval :
    calculateStats historyC5
      = some { avgScore := 22 / 3, passRate := 200 / 3, difficulty := 11 / 15,
               count := 3,
               distribution := [("待加油", 1), ("及格", 0), ("良好", 1), ("优秀", 1)] } := by
  norm_num [calculateStats, historyC5, mkResult, statsMaxScore, bucketStep]

/-- C5 counterexample: on the example history the distribution is NOT the
claimed 待加油 0 / 及格 1 / 良好 1 / 优秀 1 — the 5/10 entry has ratio 0.5,
below the 0.6 bucket boundary, so it lands in 待加油. -/
theorem calculateStats_example_buckets_ne :
    (calculateStats historyC5).map Stats.distribution
      ≠ some [("待加油", 0), ("及格", 1), ("良好", 1), ("优秀", 1)] := by
  rw [calculateStats_historyC5_eval]
  simp

/-- C5 (amended): on the example history calculateStats yields average
7.33 (to two decimals), pass rate 66.7% against the threshold 6.0, and
distribution 待加油 1 / 及格 0 / 良好 1 / 优秀 1. -/
theorem calculateStats_example :
    ∃ st, calculateStats historyC5 = some st
      ∧ Int.floor (st.avgScore * 100 + 1 / 2) = 733
      ∧ passThresholdOf historyC5 = 6
      ∧ Int.floor (st.passRate * 10 + 1 / 2) = 667
      ∧ st.distribution = [("待加油", 1), ("及格", 0), ("良好", 1), ("优秀", 1)] := by
  refine ⟨_, calculateStats_historyC5_eval, ?_, ?_, ?_, rfl⟩
  · norm_num
  · norm_num [passThresholdOf, statsMaxScore, historyC5, mkResult]
  · norm_num

/-- Helper: the bucket fold adds, bucket by bucket, the count of entries
whose own ratio falls in that bucket. -/
theorem bucketStep_foldl (h : List StudentResult) (a b c d : Nat) :
    h.foldl bucketStep (a, b, c, d)
      = (a + h.countP inBucket0, b + h.countP inBucket1,
         c + h.countP inBucket2, d + h.countP inBucket3) := by
  induction h generalizing a b c d with
  | nil => simp
  | cons x xs ih =>
      rw [List.foldl_cons]
      by_cases h1 : x.score / x.maxScore < 6 / 10
      · have h2 : x.score / x.maxScore < 3 / 4 := h1.trans_le (by norm_num)
        have h3 : x.score / x.maxScore < 9 / 10 := h1.trans_le (by norm_num)
        rw [show bucketStep (a, b, c, d) x = (a + 1, b, c, d) by
          simp [bucketStep, h1]]
        rw [ih]
        simp [List.countP_cons, inBucket0, inBucket1, inBucket2, inBucket3,
          ratioOf, h1, h2, h3, Prod.ext_iff]
        omega
      · by_cases h2 : x.score / x.maxScore < 3 / 4
        · have h3 : x.score / x.maxScore < 9 / 10 := h2.trans_le (by norm_num)
          rw [show bucketStep (a, b, c, d) x = (a, b + 1, c, d) by
            simp [bucketStep, h1, h2]]
          rw [ih]
          simp [List.countP_cons, inBucket0, inBucket1, inBucket2, inBucket3,
            ratioOf, h1, h2, h3, Prod.ext_iff]
          omega
        · by_cases h3 : x.score / x.maxScore < 9 / 10
          · rw [show bucketStep (a, b, c, d) x = (a, b, c + 1, d) by
              simp [bucketStep, h1, h2, h3]]
            rw [ih]
            simp [List.countP_cons, inBucket0, inBucket1, inBucket2, inBucket3,
              ratioOf, h1, h2, h3, Prod.ext_iff]
            omega
          · rw [show bucketStep (a, b, c, d) x = (a, b, c, d + 1) by
              simp [bucketStep, h1, h2, h3]]
            rw [ih]
            simp [List.countP_cons, inBucket0, inBucket1, inBucket2, inBucket3,
              ratioOf, h1, h2, h3, Prod.ext_iff]
            omega

/-- C10: for every non-empty history, the pass threshold is 60% of the
head entry's maxScore (defaulting to 100 when that maxScore is 0), all
entries are judged against that single threshold — so the pass rate is
unchanged by altering the maxScore of any non-head entry — the difficulty
divides the average by the same head-derived denominator, and the four
distribution buckets classify each entry by its own score/maxScore ratio. -/
theorem calculateStats_head_based (e : StudentResult) (rest : List StudentResult) :
    (∀ st, calculateStats (e :: rest) = some st →
        st.passRate
            = ((((e :: rest).filter fun s =>
                  decide (passThresholdOf (e :: rest) ≤ s.score)).length : ℚ)
                / (((e :: rest).length : Nat) : ℚ)) * 100
        ∧ st.difficulty = st.avgScore / statsMaxScore (e :: rest)
        ∧ st.distribution = bucketCounts (e :: rest))
    ∧ passThresholdOf (e :: rest)
        = (if e.maxScore = 0 then 100 else e.maxScore) * (6 / 10)
    ∧ (∀ rest₂ : List StudentResult,
        rest₂.map StudentResult.score = rest.map StudentResult.score →
        (calculateStats (e :: rest₂)).map Stats.passRate
          = (calculateStats (e :: rest)).map Stats.passRate) := by
  refine ⟨?_, rfl, ?_⟩
  · intro st hst
    simp only [calculateStats, List.isEmpty_cons, Bool.false_eq_true, if_false,
      Option.some.injEq] at hst
    subst hst
    refine ⟨rfl, rfl, ?_⟩
    simp only [bucketCounts]
    rw [bucketStep_foldl]
    simp
  · intro rest₂ hmap
    have hlen : rest₂.length = rest.length := by
      have hl := congrArg List.length hmap
      simpa using hl
    have hcnt : ∀ T : ℚ,
        (rest₂.countP fun s => decide (T ≤ s.score))
          = (rest.countP fun s => decide (T ≤ s.score)) := by
      intro T
      have h₂ := List.countP_map (fun q : ℚ => decide (T ≤ q)) StudentResult.score rest₂
      have h₁ := List.countP_map (fun q : ℚ => decide (T ≤ q)) StudentResult.score rest
      rw [hmap] at h₂
      rw [h₁] at h₂
      simpa [Function.comp] using h₂.symm
    simp only [calculateStats, List.isEmpty_cons, Bool.false_eq_true, if_false,
      Option.map_some']
    simp only [statsMaxScore, List.length_cons, ← List.countP_eq_length_filter,
      List.countP_cons, hlen, hcnt]

/-- Witness for C10 on the example history: the distribution is the
entrywise bucket count, and replacing the two non-head maxScores (10, 10)
with (99, 1) leaves the pass rate unchanged. -/
theorem calculateStats_head_based_inst :
    (∃ st, calculateStats historyC5 = some st
        ∧ st.distribution = bucketCounts historyC5)
    ∧ (calculateStats (mkResult 8 10 :: [mkResult 5 99, mkResult 9 1])).map Stats.passRate
        = (calculateStats (mkResult 8 10 :: [mkResult 5 10, mkResult 9 10])).map Stats.passRate :=
  ⟨⟨_, calculateStats_historyC5_eval,
      ((calculateStats_head_based (mkResult 8 10) [mkResult 5 10, mkResult 9 10]).1 _
          calculateStats_historyC5_eval).2.2⟩,
   (calculateStats_head_based (mkResult 8 10) [mkResult 5 10, mkResult 9 10]).2.2
      [mkResult 5 99, mkResult 9 1] rfl⟩

/-- C8 (code behaviour at the failing input): on a page where no configured
selector matches a visible element — the last generic selector matches only
a hidden input — and a visible INPUT is focused, tryFillScore does NOT fall
back to the focused element: the stale loop variable keeps the hidden
element and the score is written into it. -/
theorem tryFillScore_stale_selector :
    ((scoreInputConfigs "GENERIC" ++ genericScoreSelectors).all
        (fun sel =>
          match trapDom.query sel with
          | some e => !e.visible
          | none => true) = true)
    ∧ trapDom.activeElement = some focusedScoreInput
    ∧ focusedScoreInput.tagName = "INPUT"
    ∧ focusedScoreInput.visible = true
    ∧ hiddenScoreInput.visible = false
    ∧ (tryFillScore trapDom 5 "GENERIC").filledElem = some hiddenScoreInput.elemId
    ∧ (tryFillScore trapDom 5 "GENERIC").filledElem ≠ some focusedScoreInput.elemId := by
  refine ⟨by decide, rfl, rfl, rfl, rfl, rfl, by decide⟩

end AIGrader
